import Mathlib

/-!
Shallow embedding of the coordinate-resolution and text-layout engine of the
ticket/control-slip generator (gera_ticket.py, gera_controle.py — both
variants — and valida_layout.py), together with theorems settling the frozen
claims about it.

Coordinates and scale factors are modelled as rationals (the Python code uses
floats, but every claim is about exact decimal arithmetic that the rationals
represent faithfully).  JSON dictionaries are modelled as association lists
with first-match lookup; absence of a key is `Option.none`.
-/

namespace Cabrito

/-- First-match lookup in an association list (Python `dict` access,
`k in d` / `d[k]` / `d.get(k, default)`). -/
def alookup {α : Type} (m : List (String × α)) (k : String) : Option α :=
  (m.find? (fun p => p.1 == k)).map (fun p => p.2)

/-- Python truthiness of `str(v).strip()`: the string is blank (empty after
stripping leading and trailing whitespace), i.e. all its characters are
whitespace. -/
def isBlank (s : String) : Bool := s.data.all Char.isWhitespace

/-- Python `name.startswith("_")`. -/
def startsUnderscore (s : String) : Bool :=
  match s.data with
  | [] => false
  | c :: _ => c == '_'

/-- A coordinate-map field record (`meta` in the Python sources).
`pos = none` models a record whose `pos` entry is absent or non-numeric. -/
structure FieldMeta where
  texto : String := ""
  pos : Option (ℚ × ℚ) := none
  font : String := "Helvetica"
  pt : ℚ := 22
  align : String := "left"
deriving Repr, DecidableEq

/-- The coordinate/style map: the two reserved `_ref_width`/`_ref_height`
metadata entries (absent ⇒ `none`) plus the ordered field entries. -/
structure CoordsMap where
  ref_w : Option ℚ := none
  ref_h : Option ℚ := none
  fields : List (String × FieldMeta) := []
deriving Repr, DecidableEq

/-- One emitted text draw instruction of the ticket generator. -/
structure DrawInstr where
  name : String
  text : String
  x : ℚ
  y : ℚ
  font : String
  pt : ℚ
  align : String
deriving Repr, DecidableEq

/-! ## gera_ticket.py -/

/-- `RIGHT_KEYS` of gera_ticket.py: the fixed set of right-aligned numeric
fields. -/
def RIGHT_KEYS : List String :=
  ["tarifa_valor", "taxa_embarque_valor", "pedagio_valor",
   "valor_total_valor", "desconto_valor", "valor_a_pagar_valor",
   "valor_pag_valor", "troco_valor"]

/-- `KEY_MAP` of gera_ticket.py: coordinate-map field name → ordered list of
keys consulted in the values map. -/
def KEY_MAP : List (String × List String) :=
  [("bpe_numero_valor", ["bpe_numero"]),
   ("bpe_serie_valor",  ["bpe_serie"]),
   ("venda_valor",      ["venda", "venda:"]),
   ("origem_valor",     ["origem"]),
   ("destino_valor",    ["destino"]),
   ("data_valor",       ["data"]),
   ("horario_valor",    ["horario", "hora"]),
   ("poltrona_valor",   ["poltrona"]),
   ("plataforma_valor", ["plataforma"]),
   ("prefixo_valor",    ["prefixo"]),
   ("linha_valor_1",    ["linha1", "linha"]),
   ("linha_valor_2",    ["linha2"]),
   ("tipo_valor",       ["tipo"]),
   ("tarifa_valor",          ["tarifa"]),
   ("taxa_embarque_valor",   ["taxa_embarque"]),
   ("pedagio_valor",         ["pedagio"]),
   ("valor_total_valor",     ["valor_total"]),
   ("desconto_valor",        ["desconto"]),
   ("valor_a_pagar_valor",   ["valor_pagar"]),
   ("forma_pag_valor",       ["forma_pag"]),
   ("valor_pag_valor",       ["valor_pag"]),
   ("troco_valor",           ["troco"]),
   ("passageiro_valor_1", ["passageiro_cpf_nome"]),
   ("passageiro_valor_2", ["passageiro_sobrenome"]),
   ("bpe_numero_pequeno", ["bpe_numero"]),
   ("bpe_serie_pequeno",  ["bpe_serie"]),
   ("geracao_horario",    ["horario", "hora"])]

/-- `baseline_fix` of gera_ticket.py. -/
def baseline_fix (pt factor : ℚ) : ℚ := factor * pt

/-- `get_first` of gera_ticket.py: first values-map key present with a
non-blank trimmed string form; `none` when no key qualifies. -/
def get_first (vars_data : List (String × String)) :
    List String → Option String
  | [] => none
  | k :: rest =>
    match alookup vars_data k with
    | some v => if ¬ isBlank v then some v else get_first vars_data rest
    | none => get_first vars_data rest

/-- Text resolution of the ticket generator (gera_ticket.py main, the block
applying `KEY_MAP`/`get_first` to the coords default, with the special case
emptying `linha_valor_2` when no `linha2` value is found). -/
def resolve_text (name : String) (texto : String)
    (vars_data : List (String × String)) : String :=
  match alookup KEY_MAP name with
  | none => texto
  | some keys =>
    match get_first vars_data keys with
    | some v => v
    | none => if name == "linha_valor_2" then "" else texto

/-- The scaled authored x positions of the configured right-aligned fields
present in the coordinate map (the `xs` list built by `compute_col_r`). -/
def right_xs (coords : CoordsMap) (sx : ℚ) : List ℚ :=
  RIGHT_KEYS.filterMap (fun k =>
    match alookup coords.fields k with
    | some meta => meta.pos.map (fun p => p.1 * sx)
    | none => none)

/-- `compute_col_r` of gera_ticket.py: the shared right-column x. -/
def compute_col_r (coords : CoordsMap) (sx page_w : ℚ) : ℚ :=
  match (right_xs coords sx).max? with
  | some m => m
  | none => 89 / 100 * page_w

/-- The reference dimensions used by gera_ticket.py main: `_ref_width` and
`_ref_height` read with default 0; when either is zero (or absent), both are
replaced by the page dimensions. -/
def ticket_ref_dims (coords : CoordsMap) (page_w page_h : ℚ) : ℚ × ℚ :=
  let ref_w := coords.ref_w.getD 0
  let ref_h := coords.ref_h.getD 0
  if ref_w = 0 ∨ ref_h = 0 then (page_w, page_h) else (ref_w, ref_h)

/-- The scale factors computed by gera_ticket.py main. -/
def ticket_scales (coords : CoordsMap) (page_w page_h : ℚ) : ℚ × ℚ :=
  let rd := ticket_ref_dims coords page_w page_h
  (page_w / rd.1, page_h / rd.2)

/-- One iteration of the field loop of gera_ticket.py main: the draw
instruction emitted for one coordinate-map entry, or `none` when the entry is
metadata or its resolved text is blank. -/
def ticket_draw_field (vars_data : List (String × String)) (invert_y : Bool)
    (bl : ℚ) (page_h sx sy col_r : ℚ) (name : String)
    (meta : FieldMeta) : Option DrawInstr :=
  if startsUnderscore name then none else
  let text := resolve_text name meta.texto vars_data
  let p := meta.pos.getD (0, 0)
  let X := p.1 * sx
  let Y0 := p.2 * sy
  let Y1 := if invert_y then page_h - Y0 else Y0
  let Y := Y1 - baseline_fix meta.pt bl
  if isBlank text then none
  else if RIGHT_KEYS.contains name then
    some ⟨name, text, col_r, Y, meta.font, meta.pt, "right"⟩
  else
    some ⟨name, text, X, Y, meta.font, meta.pt, meta.align⟩

/-- The whole layout pass of gera_ticket.py main: scale factors plus the
ordered draw instructions for a coordinate map, values map and page size. -/
def ticket_main (coords : CoordsMap) (vars_data : List (String × String))
    (page_w page_h : ℚ) (invert_y : Bool) (bl : ℚ) :
    (ℚ × ℚ) × List DrawInstr :=
  let s := ticket_scales coords page_w page_h
  let col_r := compute_col_r coords s.1 page_w
  (s, coords.fields.filterMap (fun f =>
    ticket_draw_field vars_data invert_y bl page_h s.1 s.2 col_r f.1 f.2))

/-- gera_ticket.py main reads the background page size with no fallback:
`read_page_size` propagates any failure and the run aborts.  The unreadable
background is modelled as `none`. -/
def ticket_run (bg : Option (ℚ × ℚ)) (coords : CoordsMap)
    (vars_data : List (String × String)) (invert_y : Bool) (bl : ℚ) :
    Except String ((ℚ × ℚ) × List DrawInstr) :=
  match bg with
  | none => Except.error "read_page_size failed"
  | some s => Except.ok (ticket_main coords vars_data s.1 s.2 invert_y bl)

/-! ## valida_layout.py -/

/-- The y at which valida_layout.py main places a field's debug box: the
scaled (and, with `--invert-y`, inverted) authored y PLUS the baseline fix
(factor fixed at its default 0.30). -/
def valida_box_y (y_px sy page_h : ℚ) (invert_y : Bool) (pt : ℚ) : ℚ :=
  (if invert_y then page_h - y_px * sy else y_px * sy) + baseline_fix pt (3 / 10)

/-! ## gera_controle.py (repository top level)

This variant works in millimetres and converts to points with reportlab's
`mm` unit (72 / 25.4 points per millimetre).  Text width measurement
(`pdfmetrics.stringWidth`) is an external collaborator, passed in as a
function `text → font → size → width`. -/

/-- reportlab's `mm`: points per millimetre, 72 / 25.4 = 360 / 127. -/
def mmUnit : ℚ := 360 / 127

/-- `align_offset_pt` of the top-level gera_controle.py (alignment handled by
shifting the left-anchored draw x). -/
def align_offset_pt (w : String → String → ℚ → ℚ) (text font : String)
    (pt : ℚ) (align : String) : ℚ :=
  let wd := w text font pt
  if align == "center" then -wd / 2
  else if align == "right" then -wd
  else 0

/-- `get_scale` of the top-level gera_controle.py: per-axis reference
dimensions defaulting to the page dimension when absent; each axis scale is
page/reference, or 1.0 when that axis's reference dimension is zero. -/
def gc_get_scale (ref_w ref_h : Option ℚ) (page_w_mm page_h_mm : ℚ) :
    ℚ × ℚ :=
  let rw := ref_w.getD page_w_mm
  let rh := ref_h.getD page_h_mm
  (if rw = 0 then 1 else page_w_mm / rw,
   if rh = 0 then 1 else page_h_mm / rh)

/-- The text chosen by `draw_value` of the top-level gera_controle.py: a key
present in the values map is ALWAYS used (even when blank, to suppress); the
coords default is used only when the key is absent. -/
def gc_text (name : String) (texto : String)
    (dados : List (String × String)) : String :=
  match alookup dados name with
  | some v => v
  | none => texto

/-- A canvas operation emitted by the top-level gera_controle.py:
a `drawString` call or a proof rectangle. -/
inductive CtrlOp where
  | text (s : String) (x_pt y_pt : ℚ) (font : String) (pt : ℚ)
  | mark (x_pt y_pt w_pt h_pt : ℚ)
deriving Repr, DecidableEq

/-- `draw_value` of the top-level gera_controle.py: one field's canvas
operations.  A record without a (well-formed) `pos` emits nothing; otherwise
a `drawString` is always emitted (blank text included), plus a proof
rectangle when proof mode is on. -/
def gc_draw_value (w : String → String → ℚ → ℚ) (name : String)
    (meta : FieldMeta) (dados : List (String × String)) (invert_y : Bool)
    (page_h_mm sx sy : ℚ) (pf : Bool) : List CtrlOp :=
  let text := gc_text name meta.texto dados
  match meta.pos with
  | none => []
  | some p =>
    let x_mm := p.1 * sx
    let y_mm0 := p.2 * sy
    let y_mm := if invert_y then page_h_mm - y_mm0 else y_mm0
    let x_pt := x_mm * mmUnit + align_offset_pt w text meta.font meta.pt meta.align
    let y_pt := y_mm * mmUnit
    CtrlOp.text text x_pt y_pt meta.font meta.pt ::
      (if pf then
        [CtrlOp.mark ((x_mm - 4/5) * mmUnit) ((y_mm - 4/5) * mmUnit)
          (8/5 * mmUnit) (8/5 * mmUnit)]
      else [])

/-- `gerar_overlay` of the top-level gera_controle.py: scale from the coords
metadata, then `draw_value` for every non-metadata field entry. -/
def gc_overlay (w : String → String → ℚ → ℚ)
    (dados : List (String × String)) (coords : CoordsMap)
    (page_w_mm page_h_mm : ℚ) (invert_y pf : Bool) : List CtrlOp :=
  let s := gc_get_scale coords.ref_w coords.ref_h page_w_mm page_h_mm
  coords.fields.flatMap (fun f =>
    if startsUnderscore f.1 then []
    else gc_draw_value w f.1 f.2 dados invert_y page_h_mm s.1 s.2 pf)

/-- The page size used by the top-level gera_controle.py main: read from the
background, falling back to A4 (210 × 297 mm, with a warning) when the
background cannot be read.  The unreadable background is modelled as
`none`. -/
def gc_page_size (bg : Option (ℚ × ℚ)) : ℚ × ℚ := bg.getD (210, 297)

/-- The whole top-level gera_controle.py run up to the overlay: it always
produces an overlay, A4-sized when the background is unreadable. -/
def gc_run (w : String → String → ℚ → ℚ) (bg : Option (ℚ × ℚ))
    (dados : List (String × String)) (coords : CoordsMap)
    (invert_y pf : Bool) : List CtrlOp :=
  let ps := gc_page_size bg
  gc_overlay w dados coords ps.1 ps.2 invert_y pf

/-! ## src/gera_controle.py (the in-memory variant) -/

/-- `VAR_MAP` of src/gera_controle.py: coordinate-map field name → single
values-map key. -/
def VAR_MAP : List (String × String) :=
  [("origem_valor", "origem"),
   ("destino_valor", "destino"),
   ("data_valor", "data"),
   ("horario_valor", "hora"),
   ("poltrona_valor", "poltrona"),
   ("plataforma_valor", "plataforma"),
   ("prefixo_valor", "prefixo"),
   ("linha_valor_1", "linha1"),
   ("linha_valor_2", "linha2"),
   ("tipo_valor", "tipo"),
   ("passageiro_valor_1", "passageiro"),
   ("passageiro_valor_2", "passageiro_2")]

/-- Text resolution of `gerar_overlay_controle` in src/gera_controle.py: a
`VAR_MAP`-mapped key present in the values map is used verbatim (blank
included, via `dados.get(var_key, texto)`); otherwise the coords default. -/
def ctrl_resolve (name : String) (texto : String)
    (dados : List (String × String)) : String :=
  match alookup VAR_MAP name with
  | some var_key => (alookup dados var_key).getD texto
  | none => texto

/-- A draw instruction of src/gera_controle.py (anchor x in points; the
alignment is honoured by the draw primitive, not by shifting x). -/
structure CtrlInstr where
  name : String
  text : String
  x_pt : ℚ
  y_pt : ℚ
  font : String
  pt : ℚ
  align : String
deriving Repr, DecidableEq

/-- One iteration of the field loop of `gerar_overlay_controle` in
src/gera_controle.py: metadata entries and blank resolved text are skipped;
positions are used unscaled (the page size is itself taken from the coords
metadata), converted mm → points. -/
def ctrl_overlay_field (name : String) (meta : FieldMeta)
    (dados : List (String × String)) (page_h_mm : ℚ) (invert_y : Bool) :
    Option CtrlInstr :=
  if startsUnderscore name then none else
  let texto := ctrl_resolve name meta.texto dados
  if isBlank texto then none else
  let p := meta.pos.getD (0, 0)
  let y_mm := if invert_y then page_h_mm - p.2 else p.2
  some ⟨name, texto, p.1 * mmUnit, y_mm * mmUnit, meta.font, meta.pt, meta.align⟩

/-- `gerar_overlay_controle` of src/gera_controle.py: the ordered draw
instructions. -/
def ctrl_overlay (coords : CoordsMap) (dados : List (String × String))
    (page_h_mm : ℚ) (invert_y : Bool) : List CtrlInstr :=
  coords.fields.filterMap (fun f =>
    ctrl_overlay_field f.1 f.2 dados page_h_mm invert_y)

/-- The page size used by src/gera_controle.py main: from the coords
metadata with fixed defaults 80 × 130 mm (the background page is never
measured for layout). -/
def ctrl_page_size (coords : CoordsMap) : ℚ × ℚ :=
  (coords.ref_w.getD 80, coords.ref_h.getD 130)

/-! ## Group Centering Module -/

/-- A member of a configured field group: its resolved text and its own
font and size. -/
structure GroupMember where
  text : String
  font : String
  pt : ℚ
deriving Repr, DecidableEq

/-- Modelled from the spec: the repository has no Group Centering Module
under src/ (spec §4.4 describes one; no source file implements it).  Faithful
to the spec's words: emit each member left-to-right starting from the
computed x, advancing x by each member's measured width after drawing, all on
the given shared baseline y. -/
def layout_group_from (w : String → String → ℚ → ℚ) (y : ℚ) :
    ℚ → List GroupMember → List (ℚ × ℚ × GroupMember)
  | _, [] => []
  | x, m :: rest =>
    (x, y, m) :: layout_group_from w y (x + w m.text m.font m.pt) rest

/-- Modelled from the spec: the repository has no Group Centering Module
under src/ (spec §4.4 describes one; no source file implements it).  Faithful
to the spec's words: measure the rendered width of each member's resolved
text in its own font/size, sum to get the total run width, start at
`(page_width - total_width) / 2`, and emit members left-to-right on the
shared baseline y (the group's first member's transformed y). -/
def layout_group (w : String → String → ℚ → ℚ) (page_w y : ℚ)
    (members : List GroupMember) : List (ℚ × ℚ × GroupMember) :=
  let total := (members.map (fun m => w m.text m.font m.pt)).sum
  layout_group_from w y ((page_w - total) / 2) members

/-!
## Theorems settling the claims
-/

/-- Claim C1: end-to-end ticket scenario.  With coordinate map
`{_ref_width: 600, _ref_height: 2000, origem_valor: {texto: "",
pos: [50, 1800], pt: 22, align: "left"}}`, values map
`{origem: "Springfield"}`, a 300 × 1000 background page, `invert_y` set and
baseline factor 0.30, the pipeline computes scales (0.5, 0.5), resolves the
text to "Springfield", and emits exactly one draw instruction, at x = 25 and
y = 93.4 (= 1000 − 900 − 0.30·22). -/
theorem ticket_scenario_springfield :
    ticket_main
      ⟨some 600, some 2000,
       [("origem_valor", { texto := "", pos := some (50, 1800), pt := 22 })]⟩
      [("origem", "Springfield")] 300 1000 true (3/10)
    = ((1/2, 1/2),
       [{ name := "origem_valor", text := "Springfield", x := 25, y := 467/5,
          font := "Helvetica", pt := 22, align := "left" }]) := by
  norm_num +decide [ticket_main, ticket_scales, ticket_ref_dims, compute_col_r,
    right_xs, ticket_draw_field, resolve_text, get_first, alookup, isBlank,
    startsUnderscore, baseline_fix, RIGHT_KEYS, KEY_MAP,
    List.filterMap_cons, List.filterMap_nil, List.find?_cons, List.find?_nil,
    List.max?_cons, List.max?_nil, Option.map_some, Option.map_none,
    Option.getD_some, Option.getD_none, List.contains_cons, List.contains_nil]

/-- Claim C2 (counterexample): the ticket generator does NOT add the baseline
correction when `invert_y` is not set.  With scale 1.0, `invert_y = false`,
authored y = 50, font size 10 and factor 0.30, the emitted y is 47
(= 50 − 3), not 50 + 3 as the claim requires. -/
theorem baseline_additive_counterexample :
    (ticket_main
        ⟨some 100, some 100,
         [("campo", { texto := "X", pos := some (10, 50), pt := 10 })]⟩
        [] 100 100 false (3/10)).2
      = [{ name := "campo", text := "X", x := 10, y := 47,
           font := "Helvetica", pt := 10, align := "left" }]
    ∧ (47 : ℚ) ≠ 50 + 3/10 * 10 := by
  constructor
  · norm_num +decide [ticket_main, ticket_scales, ticket_ref_dims, compute_col_r,
      right_xs, ticket_draw_field, resolve_text, get_first, alookup, isBlank,
      startsUnderscore, baseline_fix, RIGHT_KEYS, KEY_MAP,
      List.filterMap_cons, List.filterMap_nil, List.find?_cons, List.find?_nil,
      List.max?_cons, List.max?_nil, Option.map_some, Option.map_none,
      Option.getD_some, Option.getD_none, List.contains_cons, List.contains_nil]
  · norm_num

/-- Claim C2 (amended): the ticket generator applies the baseline correction
by SUBTRACTING `baseline_factor · font_size` from y for BOTH settings of
`invert_y`: every emitted instruction's y is the scaled (and, when inverted,
flipped) authored y minus the correction. -/
theorem baseline_subtracted_unconditionally
    (vars_data : List (String × String)) (invert_y : Bool)
    (bl page_h sx sy col_r : ℚ) (name : String) (meta : FieldMeta)
    (i : DrawInstr)
    (h : ticket_draw_field vars_data invert_y bl page_h sx sy col_r name meta
          = some i) :
    i.y = (if invert_y then page_h - (meta.pos.getD (0, 0)).2 * sy
           else (meta.pos.getD (0, 0)).2 * sy) - baseline_fix meta.pt bl := by
  simp only [ticket_draw_field] at h
  split at h
  · exact absurd h (by simp)
  · split at h
    · exact absurd h (by simp)
    · split at h <;> (cases h; rfl)

/-- Witness for the amended C2 theorem at a concrete input. -/
theorem baseline_subtracted_unconditionally_witness :
    (47 : ℚ) = 50 - baseline_fix 10 (3/10) := by
  have h := baseline_subtracted_unconditionally [] false (3/10) 100 1 1 89
    "campo" { texto := "X", pos := some (10, 50), pt := 10 }
    { name := "campo", text := "X", x := 10, y := 47,
      font := "Helvetica", pt := 10, align := "left" }
    (by norm_num +decide [ticket_draw_field, resolve_text, get_first, alookup,
      isBlank, startsUnderscore, baseline_fix, RIGHT_KEYS, KEY_MAP,
      List.find?_cons, List.find?_nil, Option.map_some, Option.map_none,
      Option.getD_some, Option.getD_none, List.contains_cons, List.contains_nil])
  simpa using h

/-- Claim C5 (counterexample): value resolution in the ticket generator has
no suffix-stripping tier.  The field "cidade_valor" has no `KEY_MAP` entry;
with a values map containing only the stripped base key "cidade" (non-blank),
resolution returns the literal default, not the base key's value. -/
theorem suffix_stripping_counterexample :
    resolve_text "cidade_valor" "PADRAO" [("cidade", "X")] = "PADRAO"
    ∧ resolve_text "cidade_valor" "PADRAO" [("cidade", "X")] ≠ "X"
    ∧ alookup KEY_MAP "cidade_valor" = none
    ∧ isBlank "X" = false := by decide

/-- Claim C5 (amended): the values map is consulted only through the fixed
alias table `KEY_MAP`: a field with no `KEY_MAP` entry always resolves to its
literal default, and "destino_valor" resolves a non-blank "destino" value
because `KEY_MAP` lists that key, not via suffix-stripping. -/
theorem resolution_only_via_key_map :
    (∀ name texto vars_data, alookup KEY_MAP name = none →
        resolve_text name texto vars_data = texto)
  ∧ alookup KEY_MAP "destino_valor" = some ["destino"]
  ∧ (∀ texto vars_data v, alookup vars_data "destino" = some v →
        isBlank v = false →
        resolve_text "destino_valor" texto vars_data = v) := by
  refine ⟨fun name texto vars_data h => ?_, by decide,
          fun texto vars_data v hv hb => ?_⟩
  · simp only [resolve_text, h]
  · have hk : alookup KEY_MAP "destino_valor" = some ["destino"] := by decide
    simp only [resolve_text, hk, get_first, hv, hb]
    simp

/-- Witness for the amended C5 theorem at concrete inputs. -/
theorem resolution_only_via_key_map_witness :
    resolve_text "cidade_valor" "PADRAO" [("cidade", "X")] = "PADRAO"
    ∧ resolve_text "destino_valor" "PADRAO" [("destino", "Shelbyville")]
        = "Shelbyville" := by
  exact ⟨resolution_only_via_key_map.1 "cidade_valor" "PADRAO"
           [("cidade", "X")] (by decide),
         resolution_only_via_key_map.2.2 "PADRAO" [("destino", "Shelbyville")]
           "Shelbyville" (by decide) (by decide)⟩

/-- Claim C9 (counterexample): the ticket generator does NOT fall back when
the background page cannot be read: the run aborts with an error and no
document is produced. -/
theorem ticket_abort_counterexample :
    ticket_run none
      ⟨some 600, some 2000,
       [("origem_valor", { texto := "", pos := some (50, 1800), pt := 22 })]⟩
      [("origem", "Springfield")] true (3/10)
    = Except.error "read_page_size failed" := rfl

/-- Claim C9 (amended): only the top-level controle generator survives an
unreadable background page: it falls back to A4 (210 × 297 mm) and still
produces its overlay, while the ticket generator aborts the run. -/
theorem page_size_fallback :
    (∀ coords vars_data invert_y bl,
        ticket_run none coords vars_data invert_y bl
          = Except.error "read_page_size failed")
  ∧ gc_page_size none = (210, 297)
  ∧ (∀ w dados coords invert_y pf,
        gc_run w none dados coords invert_y pf
          = gc_overlay w dados coords 210 297 invert_y pf)
  ∧ (∀ s, gc_page_size (some s) = s) := by
  exact ⟨fun _ _ _ _ => rfl, rfl, fun _ _ _ _ _ => rfl, fun _ => rfl⟩

/-- Claim C10: in the ticket generator, whenever the values map has no
non-blank "linha2" entry, the field "linha_valor_2" resolves to the empty
string and is not drawn, even when its record carries a non-empty literal
default — whereas every other aliased field falls back to its literal default
when no consulted key matches. -/
theorem linha_valor_2_suppressed :
    (∀ vars_data (meta : FieldMeta) invert_y bl page_h sx sy col_r,
        get_first vars_data ["linha2"] = none →
        resolve_text "linha_valor_2" meta.texto vars_data = ""
        ∧ ticket_draw_field vars_data invert_y bl page_h sx sy col_r
            "linha_valor_2" meta = none)
  ∧ (∀ vars_data texto name keys, ¬ name = "linha_valor_2" →
        alookup KEY_MAP name = some keys → get_first vars_data keys = none →
        resolve_text name texto vars_data = texto) := by
  constructor
  · intro vars_data meta invert_y bl page_h sx sy col_r h
    have hk : alookup KEY_MAP "linha_valor_2" = some ["linha2"] := by decide
    have hres : resolve_text "linha_valor_2" meta.texto vars_data = "" := by
      simp only [resolve_text, hk, h]
      simp
    refine ⟨hres, ?_⟩
    simp only [ticket_draw_field, hres]
    simp [startsUnderscore, isBlank]
  · intro vars_data texto name keys hne hk h
    simp only [resolve_text, hk, h]
    simp [hne]

/-- Witness for the C10 theorem at a concrete input. -/
theorem linha_valor_2_suppressed_witness :
    resolve_text "linha_valor_2" "NORTE" [("linha2", "  ")] = ""
    ∧ ticket_draw_field [("linha2", "  ")] true (3/10) 1000 1 1 267
        "linha_valor_2" { texto := "NORTE", pos := some (5, 5), pt := 22 } = none
    ∧ resolve_text "origem_valor" "PADRAO" [("linha2", "  ")] = "PADRAO" := by
  have h1 := linha_valor_2_suppressed.1 [("linha2", "  ")]
    { texto := "NORTE", pos := some (5, 5), pt := 22 }
    true (3/10) 1000 1 1 267 (by decide)
  have h2 := linha_valor_2_suppressed.2 [("linha2", "  ")] "PADRAO"
    "origem_valor" ["origem"] (by decide) (by decide) (by decide)
  exact ⟨h1.1, h1.2, h2⟩

/-- Claim C3 (counterexample): in the top-level controle generator, a value
present under the consulted key (the field name) but equal to the empty
string does NOT behave as if absent: it is used verbatim, suppressing the
non-empty literal default, and the empty text is drawn. -/
theorem blank_value_suppresses_default_counterexample :
    gc_draw_value (fun _ _ _ => 0) "origem_valor"
        { texto := "PADRAO", pos := some (10, 20), pt := 8 }
        [("origem_valor", "")] false 130 1 1 false
      = [CtrlOp.text "" (3600/127) (7200/127) "Helvetica" 8]
    ∧ gc_text "origem_valor" "PADRAO" [("origem_valor", "")] ≠ "PADRAO"
    ∧ isBlank "" = true := by
  refine ⟨?_, by decide, by decide⟩
  norm_num +decide [gc_draw_value, gc_text, align_offset_pt, alookup, mmUnit,
    List.find?_cons, List.find?_nil, Option.map_some, Option.map_none,
    Option.getD_some, Option.getD_none]

/-- Claim C3 (amended): a present-but-blank value is treated as absent only
in the ticket variant's `get_first` chain, where resolution continues down
the fallback chain.  In both controle variants a present consulted key is
used verbatim even when blank, replacing (and thus suppressing) the literal
default. -/
theorem blank_value_resolution :
    (∀ vars_data k v rest, alookup vars_data k = some v → isBlank v = true →
        get_first vars_data (k :: rest) = get_first vars_data rest)
  ∧ (∀ name texto dados v, alookup dados name = some v →
        gc_text name texto dados = v)
  ∧ (∀ name key texto dados v, alookup VAR_MAP name = some key →
        alookup dados key = some v → ctrl_resolve name texto dados = v) := by
  refine ⟨fun vars_data k v rest hk hb => ?_, fun name texto dados v h => ?_,
          fun name key texto dados v h1 h2 => ?_⟩
  · simp only [get_first, hk, hb]
    simp
  · simp only [gc_text, h]
  · simp only [ctrl_resolve, h1, h2, Option.getD_some]

/-- Witness for the amended C3 theorem at concrete inputs. -/
theorem blank_value_resolution_witness :
    get_first [("origem", " ")] ["origem", "alt"]
      = get_first [("origem", " ")] ["alt"]
    ∧ gc_text "origem_valor" "PADRAO" [("origem_valor", "")] = ""
    ∧ ctrl_resolve "origem_valor" "PADRAO" [("origem", "")] = "" := by
  exact ⟨blank_value_resolution.1 [("origem", " ")] "origem" " " ["alt"]
           (by decide) (by decide),
         blank_value_resolution.2.1 "origem_valor" "PADRAO"
           [("origem_valor", "")] "" (by decide),
         blank_value_resolution.2.2 "origem_valor" "origem" "PADRAO"
           [("origem", "")] "" (by decide) (by decide)⟩

/-- Claim C4 (counterexample): the top-level controle generator emits draw
operations even for whitespace-only resolved text: `draw_value` has no blank
check, so the blank text is drawn and (in proof mode) the proof marker too. -/
theorem blank_text_drawn_counterexample :
    gc_draw_value (fun _ _ _ => 0) "obs"
        { texto := " ", pos := some (10, 20), pt := 8 } [] false 130 1 1 true
      = [CtrlOp.text " " (3600/127) (7200/127) "Helvetica" 8,
         CtrlOp.mark (3312/127) (6912/127) (576/127) (576/127)]
    ∧ isBlank " " = true := by
  refine ⟨?_, by decide⟩
  norm_num +decide [gc_draw_value, gc_text, align_offset_pt, alookup, mmUnit,
    List.find?_cons, List.find?_nil, Option.map_some, Option.map_none,
    Option.getD_some, Option.getD_none]

/-- Claim C4 (amended): blank resolved text is skipped entirely (no draw
instruction) in the ticket generator and in the in-memory controle variant,
but the top-level controle generator's `draw_value` emits its operations for
every positioned field, blank text included. -/
theorem blank_text_skipped :
    (∀ vars_data invert_y bl page_h sx sy col_r name (meta : FieldMeta),
        isBlank (resolve_text name meta.texto vars_data) = true →
        ticket_draw_field vars_data invert_y bl page_h sx sy col_r name meta
          = none)
  ∧ (∀ name (meta : FieldMeta) dados page_h invert_y,
        isBlank (ctrl_resolve name meta.texto dados) = true →
        ctrl_overlay_field name meta dados page_h invert_y = none)
  ∧ (∀ w name (meta : FieldMeta) dados invert_y page_h sx sy pf p,
        meta.pos = some p →
        gc_draw_value w name meta dados invert_y page_h sx sy pf ≠ []) := by
  refine ⟨fun vars_data invert_y bl page_h sx sy col_r name meta h => ?_,
          fun name meta dados page_h invert_y h => ?_,
          fun w name meta dados invert_y page_h sx sy pf p hp => ?_⟩
  · simp [ticket_draw_field, h]
  · simp [ctrl_overlay_field, h]
  · simp [gc_draw_value, hp]

/-- Witness for the amended C4 theorem at concrete inputs. -/
theorem blank_text_skipped_witness :
    ticket_draw_field [] false (3/10) 100 1 1 89 "nota"
        { texto := " ", pos := some (1, 2) } = none
    ∧ ctrl_overlay_field "origem_valor"
        { texto := "PADRAO", pos := some (10, 20), pt := 8 }
        [("origem", " ")] 130 false = none
    ∧ gc_draw_value (fun _ _ _ => 0) "obs"
        { texto := " ", pos := some (10, 20), pt := 8 } [] false 130 1 1 false
        ≠ [] := by
  exact ⟨blank_text_skipped.1 [] false (3/10) 100 1 1 89 "nota"
           { texto := " ", pos := some (1, 2) } (by decide),
         blank_text_skipped.2.1 "origem_valor"
           { texto := "PADRAO", pos := some (10, 20), pt := 8 }
           [("origem", " ")] 130 false (by decide),
         blank_text_skipped.2.2 (fun _ _ _ => 0) "obs"
           { texto := " ", pos := some (10, 20), pt := 8 } [] false 130 1 1
           false (10, 20) rfl⟩

/-- Claim C6 (counterexample): in the ticket generator the scale default is
NOT per-axis: with `_ref_width` zero and `_ref_height` 2000 on a 300 × 1000
page, BOTH reference dimensions are replaced by the page size, so both scales
are 1.0 — the claim requires (1, 1/2). -/
theorem ticket_scale_counterexample :
    ticket_scales ⟨some 0, some 2000, []⟩ 300 1000 = (1, 1)
    ∧ (1 : ℚ) ≠ 1/2 := by
  constructor
  · norm_num [ticket_scales, ticket_ref_dims]
  · norm_num

/-- Claim C6 (amended): `get_scale` of the top-level controle generator
defaults per axis (a zero reference dimension on one axis leaves the other
axis's page/reference ratio intact), while the ticket generator replaces
BOTH reference dimensions with the page size as soon as either is zero or
absent, making both scales 1.0. -/
theorem scale_defaults :
    (∀ rh pw ph, rh ≠ (0 : ℚ) →
        gc_get_scale (some 0) (some rh) pw ph = (1, ph / rh))
  ∧ (∀ rw pw ph, rw ≠ (0 : ℚ) →
        gc_get_scale (some rw) (some 0) pw ph = (pw / rw, 1))
  ∧ (∀ coords pw ph,
        (coords.ref_w.getD 0 = 0 ∨ coords.ref_h.getD 0 = 0) →
        pw ≠ (0 : ℚ) → ph ≠ (0 : ℚ) →
        ticket_scales coords pw ph = (1, 1)) := by
  refine ⟨fun rh pw ph h => ?_, fun rw pw ph h => ?_,
          fun coords pw ph h hpw hph => ?_⟩
  · simp [gc_get_scale, h]
  · simp [gc_get_scale, h]
  · simp only [ticket_scales, ticket_ref_dims]
    rw [if_pos h]
    simp [div_self hpw, div_self hph]

/-- Witness for the amended C6 theorem at concrete inputs. -/
theorem scale_defaults_witness :
    gc_get_scale (some 0) (some 2000) 300 1000 = (1, 1/2)
    ∧ gc_get_scale (some 600) (some 0) 300 1000 = (1/2, 1)
    ∧ ticket_scales ⟨some 0, some 2000, []⟩ 300 1000 = (1, 1) := by
  refine ⟨?_, ?_, ?_⟩
  · have h := scale_defaults.1 2000 300 1000 (by norm_num)
    rw [h]
    norm_num
  · have h := scale_defaults.2.1 600 300 1000 (by norm_num)
    rw [h]
    norm_num
  · exact scale_defaults.2.2 ⟨some 0, some 2000, []⟩ 300 1000
      (Or.inl (by norm_num)) (by norm_num) (by norm_num)

/-- Claim C7: right-column alignment in the ticket generator.  The shared
right-column x equals the maximum scaled authored x over the configured
right-aligned fields present in the coordinate map (0.89 of the page width
when none carries a numeric x), and every drawn right-key field is emitted
right-aligned at exactly that x, overriding its own authored x and declared
alignment. -/
theorem right_column_alignment :
    (∀ coords sx page_w, right_xs coords sx = [] →
        compute_col_r coords sx page_w = 89 / 100 * page_w)
  ∧ (∀ coords sx page_w x, x ∈ right_xs coords sx →
        x ≤ compute_col_r coords sx page_w
        ∧ compute_col_r coords sx page_w ∈ right_xs coords sx)
  ∧ (∀ coords vars_data pw ph invert_y bl i,
        i ∈ (ticket_main coords vars_data pw ph invert_y bl).2 →
        RIGHT_KEYS.contains i.name = true →
        i.x = compute_col_r coords (ticket_scales coords pw ph).1 pw
        ∧ i.align = "right") := by
  refine ⟨fun coords sx page_w h => ?_, fun coords sx page_w x hx => ?_,
          fun coords vars_data pw ph invert_y bl i hi hright => ?_⟩
  · simp [compute_col_r, h]
  · rcases hmax : (right_xs coords sx).max? with _ | m
    · rw [List.max?_eq_none_iff] at hmax
      simp [hmax] at hx
    · have h := (@List.max?_eq_some_iff ℚ m _ _
          ⟨fun h1 h2 => le_antisymm h1 h2⟩ le_refl max_choice
          (fun _ _ _ => max_le_iff) (right_xs coords sx)).1 hmax
      constructor
      · have hb := h.2 x hx
        simpa [compute_col_r, hmax] using hb
      · simpa [compute_col_r, hmax] using h.1
  · simp only [ticket_main, List.mem_filterMap] at hi
    obtain ⟨f, hf, hdraw⟩ := hi
    simp only [ticket_draw_field] at hdraw
    split at hdraw
    · exact absurd hdraw (by simp)
    · split at hdraw
      · exact absurd hdraw (by simp)
      · split at hdraw
        · cases hdraw
          exact ⟨rfl, rfl⟩
        · next hcontains =>
            cases hdraw
            exact absurd hright hcontains

/-- Witness for the C7 theorem at concrete inputs: two right-key fields with
scaled xs 50 and 60 share the column x 60, and the drawn "tarifa_valor"
instruction sits right-aligned at that column. -/
theorem right_column_alignment_witness :
    ((50 : ℚ) ≤ compute_col_r
        ⟨some 600, some 2000,
         [("tarifa_valor", { texto := "9,90", pos := some (100, 10), pt := 22 }),
          ("troco_valor", { texto := "0,10", pos := some (120, 20), pt := 22 })]⟩
        (1/2) 300
      ∧ compute_col_r
          ⟨some 600, some 2000,
           [("tarifa_valor", { texto := "9,90", pos := some (100, 10), pt := 22 }),
            ("troco_valor", { texto := "0,10", pos := some (120, 20), pt := 22 })]⟩
          (1/2) 300
        ∈ right_xs
            ⟨some 600, some 2000,
             [("tarifa_valor", { texto := "9,90", pos := some (100, 10), pt := 22 }),
              ("troco_valor", { texto := "0,10", pos := some (120, 20), pt := 22 })]⟩
            (1/2)) := by
  have hmem : (50 : ℚ) ∈ right_xs
      ⟨some 600, some 2000,
       [("tarifa_valor", { texto := "9,90", pos := some (100, 10), pt := 22 }),
        ("troco_valor", { texto := "0,10", pos := some (120, 20), pt := 22 })]⟩
      (1/2) := by
    norm_num [right_xs, RIGHT_KEYS, alookup, List.filterMap_cons,
      List.filterMap_nil, List.find?_cons, List.find?_nil, Option.map_some,
      Option.map_none]
  exact right_column_alignment.2.1
    ⟨some 600, some 2000,
     [("tarifa_valor", { texto := "9,90", pos := some (100, 10), pt := 22 }),
      ("troco_valor", { texto := "0,10", pos := some (120, 20), pt := 22 })]⟩
    (1/2) 300 50 hmem

/-- Claim C8 (modelled from the spec — no Group Centering Module exists under
src/): a two-member group with measured widths w1 and w2 on a page of width P
is laid out on the shared baseline y with the first member's left edge at
(P − w1 − w2)/2 and the second member's at that x plus w1. -/
theorem group_centering_two_members (w : String → String → ℚ → ℚ)
    (page_w y : ℚ) (m1 m2 : GroupMember) :
    layout_group w page_w y [m1, m2]
      = [((page_w - w m1.text m1.font m1.pt - w m2.text m2.font m2.pt) / 2,
          y, m1),
         ((page_w - w m1.text m1.font m1.pt - w m2.text m2.font m2.pt) / 2
            + w m1.text m1.font m1.pt, y, m2)] := by
  have h1 : (page_w - (w m1.text m1.font m1.pt + (w m2.text m2.font m2.pt + 0))) / 2
      = (page_w - w m1.text m1.font m1.pt - w m2.text m2.font m2.pt) / 2 := by
    ring
  simp only [layout_group, layout_group_from, List.map_cons, List.map_nil,
    List.sum_cons, List.sum_nil, h1]

end Cabrito
